import Mathlib

/-!
Verification development for the ODIN trajectory engine
(`server/trajectory-engine.ts`).

The engine is shallowly embedded: JavaScript numbers become real numbers,
`Math.sqrt` becomes `Real.sqrt`, `Math.exp` becomes `Real.exp`,
`Math.asin` becomes `Real.arcsin`, `Math.asinh` becomes `Real.arsinh`,
`Math.pow` with a fractional exponent becomes `Real.rpow`, and
`Math.atan2 y x` becomes the complex argument of `x + y*I` (both range
over `(-pi, pi]`).  Every `throw new Error(...)` site becomes
`Except.error` with an `ErrKind` constructor named after the message.
`isFinite` guards are omitted: every real number is finite.  Real-number
division by zero is `0` where JavaScript produces `Infinity` or `NaN`;
each definition where that matters carries a note.
-/

open scoped Classical

noncomputable section

namespace Odin

/-- Error kinds, one per family of `throw new Error(...)` sites in the source. -/
inductive ErrKind where
  | negativeTime
  | invalidLaunchDate
  | missionTimeTooShort
  | missionTimeTooLong
  | negativeDeltaV
  | excessiveDeltaV
  | invalidPosition
  | nonPositiveTimeOfFlight
  | nonPositiveMu
  | degenerateGeometry
  | impossibleGeometry
  | timeTooShort
  | multiRevNotImplemented
  | derivativeTooSmall
  | convergenceFailure
  | invalidSemiMajorAxis
  | singularSolution
  | outOfRange
  | invalidDryMass
  | invalidSpecificImpulse
  | invalidThrustToWeight
  | invalidMassRatio
  | negativePropellantMass
  | negativeBurnTime
  deriving DecidableEq

namespace UnitConverter

/-- `UnitConverter.hoursToSeconds`; the `isFinite` guard of the source is
omitted (real numbers are always finite). -/
def hoursToSeconds (hours : ℝ) : Except ErrKind ℝ :=
  if hours < 0 then .error .negativeTime else .ok (hours * 3600)

/-- `UnitConverter.secondsToHours`; the `isFinite` guard of the source is
omitted (real numbers are always finite). -/
def secondsToHours (seconds : ℝ) : Except ErrKind ℝ :=
  if seconds < 0 then .error .negativeTime else .ok (seconds * (1 / 3600))

/-- `UnitConverter.validateMissionTime`. -/
def validateMissionTime (hours : ℝ) : Except ErrKind Unit :=
  if hours < 0.1 then .error .missionTimeTooShort
  else if hours > 8760 then .error .missionTimeTooLong
  else .ok ()

/-- `UnitConverter.validateDeltaV`. -/
def validateDeltaV (deltaV : ℝ) : Except ErrKind Unit :=
  if deltaV < 0 then .error .negativeDeltaV
  else if deltaV > 20 then .error .excessiveDeltaV
  else .ok ()

/-- `UnitConverter.kmPerSecToMPerSec`; the `isFinite` guard is omitted. -/
def kmPerSecToMPerSec (kmPerSec : ℝ) : ℝ := kmPerSec * 1000

end UnitConverter

/-! Physical constants (the CONSTANTS table of the source). -/

def MU_EARTH : ℝ := 398600.4418
def MU_MOON : ℝ := 4902.7779
def EARTH_RADIUS : ℝ := 6371
def MOON_RADIUS : ℝ := 1737
def EARTH_MOON_DISTANCE : ℝ := 384400
def EARTH_LOW_ORBIT : ℝ := 200
def MOON_ORBIT_ALT : ℝ := 100
def SPECIFIC_IMPULSE : ℝ := 450
def SPACECRAFT_DRY_MASS : ℝ := 5000

/-- JavaScript `Math.atan2(y, x)` as the complex argument of `x + y*I`;
both range over `(-pi, pi]` and agree on finite inputs. -/
def atan2 (y x : ℝ) : ℝ := Complex.arg ⟨x, y⟩

/-- JavaScript `Number.prototype.toFixed(n)` read back as a number
(rounding to `n` decimal places). -/
def roundTo (n : ℕ) (v : ℝ) : ℝ := ((round (v * 10 ^ n) : ℤ) : ℝ) / 10 ^ n

/-! The 3D vector class. -/

structure Vector3D where
  x : ℝ
  y : ℝ
  z : ℝ

namespace Vector3D

def add (a b : Vector3D) : Vector3D := ⟨a.x + b.x, a.y + b.y, a.z + b.z⟩

def subtract (a b : Vector3D) : Vector3D := ⟨a.x - b.x, a.y - b.y, a.z - b.z⟩

def multiply (v : Vector3D) (scalar : ℝ) : Vector3D :=
  ⟨v.x * scalar, v.y * scalar, v.z * scalar⟩

def dot (a b : Vector3D) : ℝ := a.x * b.x + a.y * b.y + a.z * b.z

def cross (a b : Vector3D) : Vector3D :=
  ⟨a.y * b.z - a.z * b.y, a.z * b.x - a.x * b.z, a.x * b.y - a.y * b.x⟩

def magnitude (v : Vector3D) : ℝ := Real.sqrt (v.x * v.x + v.y * v.y + v.z * v.z)

/-- `normalize` divides each component by the magnitude.  When the magnitude
is zero the JavaScript divisions are `0 / 0 = NaN` in every component, a
non-finite result; the `Option` tracks finiteness of the result
(`none` means the components are not finite). -/
def normalize (v : Vector3D) : Option Vector3D :=
  let mag := magnitude v
  if mag = 0 then none else some ⟨v.x / mag, v.y / mag, v.z / mag⟩

end Vector3D

/-- C6: `UnitConverter.validateMissionTime(hours)` fails exactly when
`hours < 0.1` or `hours > 8760`; in particular `0.05` fails, `0.1`
succeeds, `8760` succeeds, and `8761` fails. -/
theorem validateMissionTime_ok_iff :
    (∀ h : ℝ, UnitConverter.validateMissionTime h = .ok () ↔ (0.1 ≤ h ∧ h ≤ 8760)) ∧
    UnitConverter.validateMissionTime 0.05 ≠ .ok () ∧
    UnitConverter.validateMissionTime 0.1 = .ok () ∧
    UnitConverter.validateMissionTime 8760 = .ok () ∧
    UnitConverter.validateMissionTime 8761 ≠ .ok () := by
  have key : ∀ h : ℝ, UnitConverter.validateMissionTime h = .ok () ↔ (0.1 ≤ h ∧ h ≤ 8760) := by
    intro h
    unfold UnitConverter.validateMissionTime
    split_ifs with h1 h2
    · constructor
      · intro hc; exact absurd hc (by simp)
      · rintro ⟨hl, _⟩; linarith
    · constructor
      · intro hc; exact absurd hc (by simp)
      · rintro ⟨_, hu⟩; linarith
    · exact ⟨fun _ => ⟨not_lt.1 h1, not_lt.1 h2⟩, fun _ => rfl⟩
  refine ⟨key, ?_, ?_, ?_, ?_⟩
  · intro hc
    have := (key 0.05).1 hc
    norm_num at this
  · exact (key 0.1).2 (by norm_num)
  · exact (key 8760).2 (by norm_num)
  · intro hc
    have := (key 8761).1 hc
    norm_num at this

/-- C9 counterexample: `normalize` applied to the zero-magnitude vector
produces `0 / 0 = NaN` components (modelled by `none`), so the finiteness
invariant is not preserved there, contrary to the claim. -/
theorem normalize_zero_not_finite :
    Vector3D.normalize ⟨0, 0, 0⟩ = none ∧ Vector3D.magnitude ⟨0, 0, 0⟩ = 0 := by
  have hm : Vector3D.magnitude ⟨0, 0, 0⟩ = 0 := by
    simp [Vector3D.magnitude]
  refine ⟨?_, hm⟩
  simp [Vector3D.normalize, hm]

/-- C9 (amended): `magnitude` is always nonnegative, and `normalize`
yields finite components exactly when the magnitude is nonzero — on a
zero-magnitude vector the components are `0 / 0 = NaN`.  The remaining
operations (add, subtract, multiply, cross) are closed over the reals,
so they preserve finiteness of the components trivially. -/
theorem vector_invariants :
    (∀ v : Vector3D, 0 ≤ Vector3D.magnitude v) ∧
    (∀ v : Vector3D, (Vector3D.normalize v).isSome ↔ Vector3D.magnitude v ≠ 0) := by
  refine ⟨fun v => Real.sqrt_nonneg _, fun v => ?_⟩
  simp only [Vector3D.normalize]
  split_ifs with h <;> simp [h]

/-! Orbital-elements and LOI data structures. -/

structure OrbitalElements where
  semiMajorAxis : ℝ
  eccentricity : ℝ
  inclination : ℝ
  rightAscension : ℝ
  argOfPerigee : ℝ
  trueAnomaly : ℝ

structure Feasibility where
  propulsive : Bool
  thermal : Bool
  navigation : Bool

inductive LOIStrategy where
  | direct
  | captureOrbit
  | weakStabilityBoundary
  deriving DecidableEq

structure LOIResult where
  strategy : LOIStrategy
  totalDeltaV : ℝ
  captureOrbitDeltaV : ℝ
  insertionDeltaV : ℝ
  captureOrbitElements : OrbitalElements
  finalOrbitElements : OrbitalElements
  totalTime : ℝ
  fuelEfficiency : ℝ
  feasibility : Feasibility

namespace LunarOrbitInsertion

/-- `LunarOrbitInsertion.assessFeasibility`. -/
def assessFeasibility (totalDeltaV r_target : ℝ) : Feasibility :=
  { propulsive := if totalDeltaV < 2.5 then true else false
    thermal := if r_target > MOON_RADIUS + 10 then true else false
    navigation := if totalDeltaV < 3.0 then true else false }

/-- `LunarOrbitInsertion.getOptimalPeriapsis`. -/
def getOptimalPeriapsis (v_infinity r_target : ℝ) : ℝ :=
  let min_periapsis := MOON_RADIUS + 15
  let max_periapsis := r_target * 0.8
  let thermal_factor := min (v_infinity / 2.0) 1.0
  min_periapsis + thermal_factor * (max_periapsis - min_periapsis)

/-- `LunarOrbitInsertion.calculateDirectInsertion`. -/
def calculateDirectInsertion (v_infinity r_target : ℝ) : LOIResult :=
  let v_periapsis_hyperbolic := Real.sqrt (v_infinity * v_infinity + 2 * MU_MOON / r_target)
  let v_circular := Real.sqrt (MU_MOON / r_target)
  let totalDeltaV := v_periapsis_hyperbolic - v_circular
  let feasibility := assessFeasibility totalDeltaV r_target
  let finalOrbitElements : OrbitalElements :=
    { semiMajorAxis := r_target, eccentricity := 0, inclination := 0,
      rightAscension := 0, argOfPerigee := 0, trueAnomaly := 0 }
  { strategy := .direct, totalDeltaV := totalDeltaV, captureOrbitDeltaV := 0,
    insertionDeltaV := totalDeltaV, captureOrbitElements := finalOrbitElements,
    finalOrbitElements := finalOrbitElements, totalTime := 0.1,
    fuelEfficiency := 100, feasibility := feasibility }

/-- `LunarOrbitInsertion.calculateHighEnergyCapture`.  `Real.sqrt` of a
negative argument is the junk value `0` where JavaScript produces `NaN`. -/
def calculateHighEnergyCapture (v_infinity r_target r_periapsis : ℝ) :
    Except ErrKind LOIResult := do
  let r_intermediate := r_target * 3
  let v_periapsis_hyperbolic := Real.sqrt (v_infinity * v_infinity + 2 * MU_MOON / r_periapsis)
  let energy_intermediate := -MU_MOON / (r_periapsis + r_intermediate)
  let v_periapsis_intermediate := Real.sqrt (2 * (energy_intermediate + MU_MOON / r_periapsis))
  let captureOrbitDeltaV := v_periapsis_hyperbolic - v_periapsis_intermediate
  let v_intermediate :=
    Real.sqrt (MU_MOON * (2 / r_intermediate - 2 / (r_periapsis + r_intermediate)))
  let v_circular := Real.sqrt (MU_MOON / r_target)
  let insertionDeltaV := |v_circular - v_intermediate|
  let totalDeltaV := captureOrbitDeltaV + insertionDeltaV
  let a_intermediate := (r_periapsis + r_intermediate) / 2
  let period := 2 * Real.pi * Real.sqrt (a_intermediate ^ 3 / MU_MOON)
  let totalTime ← UnitConverter.secondsToHours period
  let captureOrbitElements : OrbitalElements :=
    { semiMajorAxis := a_intermediate,
      eccentricity := (r_intermediate - r_periapsis) / (r_intermediate + r_periapsis),
      inclination := 0, rightAscension := 0, argOfPerigee := 0, trueAnomaly := 0 }
  let finalOrbitElements : OrbitalElements :=
    { semiMajorAxis := r_target, eccentricity := 0, inclination := 0,
      rightAscension := 0, argOfPerigee := 0, trueAnomaly := 0 }
  let feasibility := assessFeasibility totalDeltaV r_target
  pure { strategy := .captureOrbit, totalDeltaV := totalDeltaV,
         captureOrbitDeltaV := captureOrbitDeltaV, insertionDeltaV := insertionDeltaV,
         captureOrbitElements := captureOrbitElements,
         finalOrbitElements := finalOrbitElements, totalTime := totalTime,
         fuelEfficiency := 0, feasibility := feasibility }

/-- `LunarOrbitInsertion.calculateCaptureOrbitInsertion`.  Known
divergence of the total embedding: the computed `r_apoapsis` is
negative, so `a_capture` is negative and `Real.sqrt (a_capture ^ 3)` is
the junk value `0` where JavaScript produces `NaN`, and the source's
`secondsToHours` then throws its omitted `isFinite` guard (`Time must be
finite`) while this model returns `.ok`.  The divergence is confined to
the success path: both model and source decide the earlier `OutOfRange`
guards identically, which is all the out-of-range characterisation
relies on. -/
def calculateCaptureOrbitInsertion (v_infinity r_target r_periapsis : ℝ) :
    Except ErrKind LOIResult := do
  let v_periapsis_hyperbolic := Real.sqrt (v_infinity * v_infinity + 2 * MU_MOON / r_periapsis)
  let specific_energy_target := -MU_MOON / (2 * r_target)
  let v_periapsis_capture := Real.sqrt (2 * (specific_energy_target + MU_MOON / r_periapsis))
  let captureOrbitDeltaV := v_periapsis_hyperbolic - v_periapsis_capture
  let r_apoapsis := MU_MOON / (2 * specific_energy_target) - r_periapsis
  if r_apoapsis > MOON_RADIUS * 100 then
    calculateHighEnergyCapture v_infinity r_target r_periapsis
  else
    let v_apoapsis_capture := Real.sqrt (2 * (specific_energy_target + MU_MOON / r_apoapsis))
    let v_circular := Real.sqrt (MU_MOON / r_target)
    let insertionDeltaV := |v_circular - v_apoapsis_capture|
    let totalDeltaV := captureOrbitDeltaV + insertionDeltaV
    let a_capture := (r_periapsis + r_apoapsis) / 2
    let period_capture := 2 * Real.pi * Real.sqrt (a_capture ^ 3 / MU_MOON)
    let totalTime ← UnitConverter.secondsToHours (period_capture / 2)
    let captureOrbitElements : OrbitalElements :=
      { semiMajorAxis := a_capture,
        eccentricity := (r_apoapsis - r_periapsis) / (r_apoapsis + r_periapsis),
        inclination := 0, rightAscension := 0, argOfPerigee := 0, trueAnomaly := 0 }
    let finalOrbitElements : OrbitalElements :=
      { semiMajorAxis := r_target, eccentricity := 0, inclination := 0,
        rightAscension := 0, argOfPerigee := 0, trueAnomaly := 0 }
    let feasibility := assessFeasibility totalDeltaV r_target
    pure { strategy := .captureOrbit, totalDeltaV := totalDeltaV,
           captureOrbitDeltaV := captureOrbitDeltaV, insertionDeltaV := insertionDeltaV,
           captureOrbitElements := captureOrbitElements,
           finalOrbitElements := finalOrbitElements, totalTime := totalTime,
           fuelEfficiency := 0, feasibility := feasibility }

/-- JavaScript truthiness of `a || b` for an optional number: absent or `0`
falls back to the default. -/
def jsOrElse (a : Option ℝ) (b : ℝ) : ℝ :=
  match a with
  | none => b
  | some v => if v = 0 then b else v

/-- `LunarOrbitInsertion.calculateOptimalLOI`.  The optional periapsis is
`r_periapsis || getOptimalPeriapsis(...)` in the source; JavaScript treats
`0` as falsy, hence `jsOrElse`. -/
def calculateOptimalLOI (v_infinity r_target : ℝ) (r_periapsis : Option ℝ) :
    Except ErrKind LOIResult := do
  if v_infinity ≤ 0 ∨ v_infinity > 5.0 then .error .outOfRange
  else if r_target ≤ MOON_RADIUS ∨ r_target > MOON_RADIUS * 10 then .error .outOfRange
  else
    let directResult := calculateDirectInsertion v_infinity r_target
    let rp := jsOrElse r_periapsis (getOptimalPeriapsis v_infinity r_target)
    let captureOrbitResult ← calculateCaptureOrbitInsertion v_infinity r_target rp
    if captureOrbitResult.totalDeltaV < directResult.totalDeltaV then
      pure { captureOrbitResult with
             strategy := LOIStrategy.captureOrbit
             fuelEfficiency :=
               (directResult.totalDeltaV / captureOrbitResult.totalDeltaV - 1) * 100 }
    else
      pure { directResult with strategy := LOIStrategy.direct, fuelEfficiency := 100 }

theorem highEnergyCapture_ok (v_infinity r_target r_periapsis : ℝ) :
    ∃ res, calculateHighEnergyCapture v_infinity r_target r_periapsis = .ok res := by
  simp only [calculateHighEnergyCapture, UnitConverter.secondsToHours]
  split_ifs with h
  · exact absurd h (not_lt.2 (by positivity))
  · exact ⟨_, rfl⟩

theorem captureOrbitInsertion_ok (v_infinity r_target r_periapsis : ℝ) :
    ∃ res, calculateCaptureOrbitInsertion v_infinity r_target r_periapsis = .ok res := by
  simp only [calculateCaptureOrbitInsertion, UnitConverter.secondsToHours]
  split_ifs with h h2
  · exact highEnergyCapture_ok v_infinity r_target r_periapsis
  · exact absurd h2 (not_lt.2 (by positivity))
  · exact ⟨_, rfl⟩

/-- C2 counterexample: with `v_infinity = 1` (inside the supported `(0, 5]`)
and `r_target = MOON_RADIUS = 1737` exactly, the claim says the call is not
rejected as out of range, but the source guard `r_target <= MOON_RADIUS`
rejects it with the out-of-range error. -/
theorem calculateOptimalLOI_boundary_rejected :
    calculateOptimalLOI 1 1737 none = .error .outOfRange ∧
    (0 : ℝ) < 1 ∧ (1 : ℝ) ≤ 5 ∧ MOON_RADIUS ≤ 1737 ∧ (1737 : ℝ) ≤ 10 * MOON_RADIUS := by
  refine ⟨?_, by norm_num, by norm_num, by simp [MOON_RADIUS], by norm_num [MOON_RADIUS]⟩
  simp only [calculateOptimalLOI]
  rw [if_neg (by norm_num), if_pos (by norm_num [MOON_RADIUS])]

/-- C2 (amended): `calculateOptimalLOI` fails with the out-of-range error
exactly when `v_infinity` is not in `(0, 5]` or `r_target` is not in the
half-open interval `(MOON_RADIUS, 10 * MOON_RADIUS]` — the lower bound is
strict (`r_target = MOON_RADIUS` is rejected); the call with
`v_infinity = 6.0`, `r_target = 2000` fails with the out-of-range error. -/
theorem calculateOptimalLOI_outOfRange_iff :
    (∀ (v r : ℝ) (rp : Option ℝ),
        calculateOptimalLOI v r rp = .error .outOfRange ↔
          ¬(0 < v ∧ v ≤ 5 ∧ MOON_RADIUS < r ∧ r ≤ 10 * MOON_RADIUS)) ∧
    calculateOptimalLOI 6.0 2000 none = .error .outOfRange := by
  have key : ∀ (v r : ℝ) (rp : Option ℝ),
      calculateOptimalLOI v r rp = .error .outOfRange ↔
        ¬(0 < v ∧ v ≤ 5 ∧ MOON_RADIUS < r ∧ r ≤ 10 * MOON_RADIUS) := by
    intro v r rp
    simp only [calculateOptimalLOI]
    split_ifs with h1 h2
    · constructor
      · intro _
        rintro ⟨hv, hv5, _, _⟩
        rcases h1 with h | h <;> linarith
      · intro _; rfl
    · constructor
      · intro _
        rintro ⟨_, _, hr, hr10⟩
        simp only [MOON_RADIUS] at h2 hr hr10
        rcases h2 with h | h <;> linarith
      · intro _; rfl
    · push_neg at h1 h2
      constructor
      · intro hc
        exfalso
        obtain ⟨res, hres⟩ :=
          captureOrbitInsertion_ok v r (jsOrElse rp (getOptimalPeriapsis v r))
        rw [hres] at hc
        simp only [bind, Except.bind, pure, Except.pure] at hc
        split_ifs at hc
      · intro hc
        refine absurd ⟨h1.1, ?_, h2.1, ?_⟩ hc
        · linarith [h1.2]
        · linarith [h2.2]
  refine ⟨key, (key 6.0 2000 none).2 ?_⟩
  rintro ⟨_, hv5, _, _⟩
  norm_num at hv5

end LunarOrbitInsertion

/-! Lambert solver (Izzo algorithm). -/

inductive SolutionType where
  | prograde
  | retrograde
  deriving DecidableEq

structure LambertResult where
  velocityDeparture : Vector3D
  velocityArrival : Vector3D
  convergenceIterations : ℕ
  solutionType : SolutionType

namespace IzzoSolver

/-- `IzzoSolver.computeMinimumEnergyTime`. -/
def computeMinimumEnergyTime (lambda : ℝ) : ℝ :=
  (1 / 3) * (1 - lambda * lambda * lambda)

/-- `IzzoSolver.calculateY`. -/
def calculateY (x lambda : ℝ) : ℝ :=
  Real.sqrt (1 - lambda * lambda * (1 - x * x))

/-- `IzzoSolver.calculateTime`.  `Math.asin` becomes `Real.arcsin`; for
arguments outside `[-1, 1]` JavaScript produces `NaN` while
`Real.arcsin` clamps to `±pi/2` (junk-value convention of the total
embedding), so this definition is faithful only while
`|sqrt(x) * y| <= 1`; `calculateTimeJS` below models the `NaN` case
faithfully as `none`. -/
def calculateTime (x y : ℝ) : ℝ :=
  if x < 0 then
    let sqrt_neg_x := Real.sqrt (-x)
    (Real.arsinh (sqrt_neg_x * y) + sqrt_neg_x * y) / (-x) ^ ((3 : ℝ) / 2)
  else if x > 0 then
    let sqrt_x := Real.sqrt x
    if sqrt_x * y ≤ 1 then
      (Real.arcsin (sqrt_x * y) + sqrt_x * y) / x ^ ((3 : ℝ) / 2)
    else
      (Real.pi - Real.arcsin (sqrt_x * y) + sqrt_x * y) / x ^ ((3 : ℝ) / 2)
  else
    (2 / 3) * (1 - y ^ 3)

/-- `IzzoSolver.calculateTimeDerivative`.  Same `Real.arcsin`-for-
`Math.asin` convention as `calculateTime`: faithful only while
`|sqrt(x) * y| <= 1`; `calculateTimeDerivativeJS` below models the `NaN`
case faithfully as `none`. -/
def calculateTimeDerivative (x y : ℝ) : ℝ :=
  if x < 0 then
    let sqrt_neg_x := Real.sqrt (-x)
    (3 * Real.arsinh (sqrt_neg_x * y) + 3 * sqrt_neg_x * y + sqrt_neg_x * y * y * y) /
      (2 * (-x) ^ ((5 : ℝ) / 2))
  else if x > 0 then
    let sqrt_x := Real.sqrt x
    if sqrt_x * y ≤ 1 then
      (3 * Real.arcsin (sqrt_x * y) + 3 * sqrt_x * y - sqrt_x * y * y * y) /
        (2 * x ^ ((5 : ℝ) / 2))
    else
      (3 * (Real.pi - Real.arcsin (sqrt_x * y)) + 3 * sqrt_x * y - sqrt_x * y * y * y) /
        (2 * x ^ ((5 : ℝ) / 2))
  else
    -(y * y)

/-- JavaScript `Math.asin`: `NaN` for arguments outside `[-1, 1]`
(modelled as `none`), `Real.arcsin` inside. -/
def asinJS (v : ℝ) : Option ℝ :=
  if v < -1 ∨ 1 < v then none else some (Real.arcsin v)

/-- `IzzoSolver.calculateTime` again, with the domain of `Math.asin`
modelled faithfully: `none` is the `NaN` JavaScript produces when either
elliptical branch calls `Math.asin(sqrt(x) * y)` with `sqrt(x) * y`
outside `[-1, 1]`.  Where this definition is `some t`, `calculateTime`
above agrees and returns `t`. -/
def calculateTimeJS (x y : ℝ) : Option ℝ :=
  if x < 0 then
    let sqrt_neg_x := Real.sqrt (-x)
    some ((Real.arsinh (sqrt_neg_x * y) + sqrt_neg_x * y) / (-x) ^ ((3 : ℝ) / 2))
  else if x > 0 then
    let sqrt_x := Real.sqrt x
    if sqrt_x * y ≤ 1 then
      (asinJS (sqrt_x * y)).map (fun a => (a + sqrt_x * y) / x ^ ((3 : ℝ) / 2))
    else
      (asinJS (sqrt_x * y)).map (fun a => (Real.pi - a + sqrt_x * y) / x ^ ((3 : ℝ) / 2))
  else
    some ((2 / 3) * (1 - y ^ 3))

/-- `IzzoSolver.calculateTimeDerivative` with the domain of `Math.asin`
modelled faithfully (see `calculateTimeJS`). -/
def calculateTimeDerivativeJS (x y : ℝ) : Option ℝ :=
  if x < 0 then
    let sqrt_neg_x := Real.sqrt (-x)
    some ((3 * Real.arsinh (sqrt_neg_x * y) + 3 * sqrt_neg_x * y + sqrt_neg_x * y * y * y) /
      (2 * (-x) ^ ((5 : ℝ) / 2)))
  else if x > 0 then
    let sqrt_x := Real.sqrt x
    if sqrt_x * y ≤ 1 then
      (asinJS (sqrt_x * y)).map (fun a =>
        (3 * a + 3 * sqrt_x * y - sqrt_x * y * y * y) / (2 * x ^ ((5 : ℝ) / 2)))
    else
      (asinJS (sqrt_x * y)).map (fun a =>
        (3 * (Real.pi - a) + 3 * sqrt_x * y - sqrt_x * y * y * y) /
          (2 * x ^ ((5 : ℝ) / 2)))
  else
    some (-(y * y))

/-- `IzzoSolver.calculateTimeSecondDerivative` (central finite difference
with step `1e-8`; the source recomputes `y` at the displaced points and
ignores the passed `y`). -/
def calculateTimeSecondDerivative (x _y lambda : ℝ) : ℝ :=
  let epsilon : ℝ := 1e-8
  (calculateTimeDerivative (x + epsilon) (calculateY (x + epsilon) lambda) -
      calculateTimeDerivative (x - epsilon) (calculateY (x - epsilon) lambda)) /
    (2 * epsilon)

/-- Initial guess of `IzzoSolver.solveForX`. -/
def initialGuess (lambda T : ℝ) : ℝ :=
  if T ≥ 1 / 3 then (T * 3) ^ ((1 : ℝ) / 3) - 1
  else 5 * T * T * T / (2 * (1 - lambda * lambda * lambda))

inductive StepOut where
  | done (x : ℝ)
  | next (x : ℝ)

/-- One pass of the Householder loop body of `IzzoSolver.solveForX`:
either the convergence test fires (`done`), the derivative guard throws,
or the capped and clamped step produces the next iterate (`next`). -/
def solveStep (lambda T tolerance x : ℝ) : Except ErrKind StepOut :=
  let y := calculateY x lambda
  let T_computed := calculateTime x y
  let F := T_computed - T
  if |F| < tolerance then .ok (.done x)
  else
    let dT_dx := calculateTimeDerivative x y
    let d2T_dx2 := calculateTimeSecondDerivative x y lambda
    let denominator := dT_dx - F * d2T_dx2 / (2 * dT_dx)
    if |denominator| < 1e-15 then .error .derivativeTooSmall
    else
      let delta_x := -F / denominator
      let limited_delta := Real.sign delta_x * min |delta_x| 0.5
      .ok (.next (max (-1) (min (x + limited_delta) 50)))

/-- The `while` loop of `IzzoSolver.solveForX`: `fuel` is the remaining
iteration budget, `used` the number of completed iterations (the source's
`iterations` counter); exhausting the budget throws the convergence
failure. -/
def solveForXAux (lambda T tolerance : ℝ) : ℕ → ℝ → ℕ → Except ErrKind (ℝ × ℕ)
  | 0, _, _ => .error .convergenceFailure
  | fuel + 1, x, used =>
    match solveStep lambda T tolerance x with
    | .error e => .error e
    | .ok (.done x') => .ok (x', used)
    | .ok (.next x') => solveForXAux lambda T tolerance fuel x' (used + 1)

/-- `IzzoSolver.solveForX`. -/
def solveForX (lambda T tolerance : ℝ) (maxIterations : ℕ) : Except ErrKind ℝ :=
  (solveForXAux lambda T tolerance maxIterations (initialGuess lambda T) 0).map Prod.fst

structure LagrangeCoefficients where
  f : ℝ
  g : ℝ
  fdot : ℝ
  gdot : ℝ

/-- `IzzoSolver.calculateLagrangeCoefficients` (the `T`, `timeOfFlight`
parameters of the source are unused by its body). -/
def calculateLagrangeCoefficients (x lambda r1_mag r2_mag s _T _timeOfFlight mu : ℝ) :
    Except ErrKind LagrangeCoefficients :=
  let y := calculateY x lambda
  let a := s / (2 * (1 - x * x))
  if a ≤ 0 then .error .invalidSemiMajorAxis
  else
    let sqrt_mu := Real.sqrt mu
    let sqrt_a := Real.sqrt a
    let f := 1 - (a / r1_mag) * (1 - x * x)
    let g := a * (s - r1_mag - r2_mag) * sqrt_a / (sqrt_mu * r1_mag * y)
    let gdot := 1 - (a / r2_mag) * (1 - x * x)
    let fdot := (f * gdot - 1) / g
    .ok { f := f, g := g, fdot := fdot, gdot := gdot }

end IzzoSolver

namespace LambertSolver

open IzzoSolver

/-- Chord `c = |r2 - r1|` of `LambertSolver.solve`. -/
def chord (r1 r2 : Vector3D) : ℝ := Vector3D.magnitude (Vector3D.subtract r2 r1)

/-- Semiperimeter `s = (|r1| + |r2| + c) / 2` of `LambertSolver.solve`. -/
def semiperimeter (r1 r2 : Vector3D) : ℝ :=
  (Vector3D.magnitude r1 + Vector3D.magnitude r2 + chord r1 r2) / 2

/-- Transfer angle `dnu` of `LambertSolver.solve` (short way for prograde,
its complement for retrograde). -/
def transferAngle (r1 r2 : Vector3D) (prograde : Bool) : ℝ :=
  let r1_mag := Vector3D.magnitude r1
  let r2_mag := Vector3D.magnitude r2
  let cos_dnu := Vector3D.dot r1 r2 / (r1_mag * r2_mag)
  let cos_dnu_clamped := max (-1) (min 1 cos_dnu)
  let sin_dnu := Vector3D.magnitude (Vector3D.cross r1 r2) / (r1_mag * r2_mag)
  let base := atan2 sin_dnu cos_dnu_clamped
  let adjusted := if base < 0 then base + 2 * Real.pi else base
  if prograde then adjusted else 2 * Real.pi - adjusted

/-- Normalized time of flight `T = sqrt(2 mu / s^3) * timeOfFlight`. -/
def normalizedTime (r1 r2 : Vector3D) (timeOfFlight mu : ℝ) : ℝ :=
  let s := semiperimeter r1 r2
  Real.sqrt (2 * mu / (s * s * s)) * timeOfFlight

/-- Izzo shape parameter `lambda = sqrt(|r1| |r2|) cos(dnu/2) / s`. -/
def lambdaParameter (r1 r2 : Vector3D) (prograde : Bool) : ℝ :=
  Real.sqrt (Vector3D.magnitude r1 * Vector3D.magnitude r2) *
      Real.cos (transferAngle r1 r2 prograde / 2) / semiperimeter r1 r2

/-- `LambertSolver.solve`.  The non-fatal Lagrange-determinant
`console.warn` of the source is a side effect with no influence on the
returned value and is omitted. -/
def solve (r1 r2 : Vector3D) (timeOfFlight mu : ℝ) (prograde : Bool) (multiRevs : ℕ) :
    Except ErrKind LambertResult :=
  let tolerance : ℝ := 1e-14
  let maxIterations : ℕ := 30
  let r1_mag := Vector3D.magnitude r1
  let r2_mag := Vector3D.magnitude r2
  if r1_mag < 1e-6 ∨ r2_mag < 1e-6 then .error .invalidPosition
  else if timeOfFlight ≤ 0 then .error .nonPositiveTimeOfFlight
  else if mu ≤ 0 then .error .nonPositiveMu
  else
    let c := chord r1 r2
    let s := semiperimeter r1 r2
    if c < 1e-6 then .error .degenerateGeometry
    else
      let T := normalizedTime r1 r2 timeOfFlight mu
      let lambda := lambdaParameter r1 r2 prograde
      if 1 ≤ |lambda| then .error .impossibleGeometry
      else if multiRevs = 0 then
        let T_min := computeMinimumEnergyTime lambda
        if T < T_min then .error .timeTooShort
        else
          match solveForX lambda T tolerance maxIterations with
          | .error e => .error e
          | .ok x =>
            match calculateLagrangeCoefficients x lambda r1_mag r2_mag s T timeOfFlight mu with
            | .error e => .error e
            | .ok lc =>
              if |lc.g| < 1e-15 then .error .singularSolution
              else
                let v1 := Vector3D.multiply
                  (Vector3D.subtract r2 (Vector3D.multiply r1 lc.f)) (1 / lc.g)
                let v2 := Vector3D.add (Vector3D.multiply v1 lc.fdot)
                  (Vector3D.multiply r1 (lc.gdot / lc.g))
                .ok { velocityDeparture := v1, velocityArrival := v2,
                      convergenceIterations := maxIterations,
                      solutionType := if prograde then .prograde else .retrograde }
      else .error .multiRevNotImplemented

end LambertSolver

/-- Evaluation helper: the square root of a number exhibited as a square. -/
theorem sqrt_of_sq {a b : ℝ} (hb : 0 ≤ b) (h : b ^ 2 = a) : Real.sqrt a = b := by
  rw [← h, Real.sqrt_sq hb]

/-- Lower bound on a square root from a bound on the square. -/
theorem le_sqrt_of_sq_le {a b : ℝ} (hb : 0 ≤ b) (h : b ^ 2 ≤ a) : b ≤ Real.sqrt a := by
  calc b = Real.sqrt (b ^ 2) := (Real.sqrt_sq hb).symm
  _ ≤ Real.sqrt a := Real.sqrt_le_sqrt h

/-- Strict lower bound on a square root from a bound on the square. -/
theorem lt_sqrt_of_sq_lt {a b : ℝ} (hb : 0 ≤ b) (h : b ^ 2 < a) : b < Real.sqrt a := by
  calc b = Real.sqrt (b ^ 2) := (Real.sqrt_sq hb).symm
  _ < Real.sqrt a := Real.sqrt_lt_sqrt (by positivity) h

/-- Strict upper bound on a square root from a bound on the square. -/
theorem sqrt_lt_of_lt_sq {a b : ℝ} (ha : 0 ≤ a) (hb : 0 ≤ b) (h : a < b ^ 2) :
    Real.sqrt a < b := by
  calc Real.sqrt a < Real.sqrt (b ^ 2) := Real.sqrt_lt_sqrt ha h
  _ = b := Real.sqrt_sq hb

namespace IzzoSolver

theorem solveStep_error_eq (lambda T tol x : ℝ) (e : ErrKind)
    (h : solveStep lambda T tol x = .error e) : e = .derivativeTooSmall := by
  simp only [solveStep] at h
  split_ifs at h
  all_goals injection h with h2; exact h2.symm

theorem solveForXAux_error (lambda T tol : ℝ) (fuel : ℕ) (x : ℝ) (used : ℕ) (e : ErrKind)
    (h : solveForXAux lambda T tol fuel x used = .error e) :
    e = .convergenceFailure ∨ e = .derivativeTooSmall := by
  induction fuel generalizing x used with
  | zero =>
    simp only [solveForXAux, Except.error.injEq] at h
    exact Or.inl h.symm
  | succ n ih =>
    simp only [solveForXAux] at h
    cases hs : solveStep lambda T tol x with
    | error e' =>
      simp only [hs] at h
      injection h with h2
      exact Or.inr (h2 ▸ solveStep_error_eq lambda T tol x e' hs)
    | ok o =>
      cases o with
      | done x' =>
        simp only [hs] at h
        exact Except.noConfusion h
      | next x' =>
        simp only [hs] at h
        exact ih x' (used + 1) h

theorem solveForX_error (lambda T tol : ℝ) (m : ℕ) (e : ErrKind)
    (h : solveForX lambda T tol m = .error e) :
    e = .convergenceFailure ∨ e = .derivativeTooSmall := by
  unfold solveForX at h
  cases ha : solveForXAux lambda T tol m (initialGuess lambda T) 0 with
  | error e' =>
    simp only [ha, Except.map] at h
    injection h with h2
    exact h2 ▸ solveForXAux_error lambda T tol m (initialGuess lambda T) 0 e' ha
  | ok p =>
    simp only [ha, Except.map] at h
    exact Except.noConfusion h

theorem calculateLagrangeCoefficients_error (x lambda r1m r2m s T tof mu : ℝ) (e : ErrKind)
    (h : calculateLagrangeCoefficients x lambda r1m r2m s T tof mu = .error e) :
    e = .invalidSemiMajorAxis := by
  simp only [calculateLagrangeCoefficients] at h
  split_ifs at h
  all_goals injection h with h2; exact h2.symm

end IzzoSolver

/-- C8 counterexample: with both positions the zero vector the chord is `0`
(below `1e-6`), the time of flight and `mu` are positive, yet the solver
fails with the invalid-position error of the earlier magnitude guard, not
with the degenerate-geometry error the claim asserts. -/
theorem solve_coincident_zero_vectors :
    LambertSolver.chord ⟨0, 0, 0⟩ ⟨0, 0, 0⟩ < 1e-6 ∧ (0 : ℝ) < 3600 ∧
    (0 : ℝ) < 398600.4418 ∧
    LambertSolver.solve ⟨0, 0, 0⟩ ⟨0, 0, 0⟩ 3600 398600.4418 true 0 =
      .error .invalidPosition ∧
    LambertSolver.solve ⟨0, 0, 0⟩ ⟨0, 0, 0⟩ 3600 398600.4418 true 0 ≠
      .error .degenerateGeometry := by
  have hm : Vector3D.magnitude ⟨0, 0, 0⟩ = 0 := by
    simp [Vector3D.magnitude]
  have hchord : LambertSolver.chord ⟨0, 0, 0⟩ ⟨0, 0, 0⟩ = 0 := by
    simp [LambertSolver.chord, Vector3D.subtract, Vector3D.magnitude]
  have heq : LambertSolver.solve ⟨0, 0, 0⟩ ⟨0, 0, 0⟩ 3600 398600.4418 true 0 =
      .error .invalidPosition := by
    simp only [LambertSolver.solve]
    rw [if_pos (Or.inl (by rw [hm]; norm_num))]
  refine ⟨by rw [hchord]; norm_num, by norm_num, by norm_num, heq, ?_⟩
  rw [heq]
  simp

/-- C8 (amended): when both position magnitudes also pass the `1e-6`
magnitude guard, the solver fails with the degenerate-geometry error
whenever the chord is below `1e-6` km, for every positive time of flight
and gravitational parameter (for coincident zero vectors the earlier
invalid-position guard fires instead, see the counterexample). -/
theorem solve_degenerate_of_chord_small (r1 r2 : Vector3D) (timeOfFlight mu : ℝ)
    (prograde : Bool) (multiRevs : ℕ)
    (h1 : 1e-6 ≤ Vector3D.magnitude r1) (h2 : 1e-6 ≤ Vector3D.magnitude r2)
    (hT : 0 < timeOfFlight) (hmu : 0 < mu)
    (hc : LambertSolver.chord r1 r2 < 1e-6) :
    LambertSolver.solve r1 r2 timeOfFlight mu prograde multiRevs =
      .error .degenerateGeometry := by
  simp only [LambertSolver.solve]
  rw [if_neg (by push_neg; exact ⟨h1, h2⟩), if_neg (not_le.2 hT), if_neg (not_le.2 hmu),
    if_pos hc]

/-- Witness for the amended C8 at the scenario input
`r1 = r2 = (7000, 0, 0)`, `T = 3600`, `mu = 398600.4418`. -/
theorem solve_degenerate_of_chord_small_witness :
    1e-6 ≤ Vector3D.magnitude ⟨7000, 0, 0⟩ ∧ (0 : ℝ) < 3600 ∧ (0 : ℝ) < 398600.4418 ∧
    LambertSolver.chord ⟨7000, 0, 0⟩ ⟨7000, 0, 0⟩ < 1e-6 ∧
    LambertSolver.solve ⟨7000, 0, 0⟩ ⟨7000, 0, 0⟩ 3600 398600.4418 true 0 =
      .error .degenerateGeometry := by
  have hm : Vector3D.magnitude ⟨7000, 0, 0⟩ = 7000 := by
    simp only [Vector3D.magnitude]
    exact sqrt_of_sq (by norm_num) (by norm_num)
  have hchord : LambertSolver.chord ⟨7000, 0, 0⟩ ⟨7000, 0, 0⟩ = 0 := by
    simp [LambertSolver.chord, Vector3D.subtract, Vector3D.magnitude]
  refine ⟨by rw [hm]; norm_num, by norm_num, by norm_num, by rw [hchord]; norm_num, ?_⟩
  exact solve_degenerate_of_chord_small _ _ _ _ _ _ (by rw [hm]; norm_num)
    (by rw [hm]; norm_num) (by norm_num) (by norm_num) (by rw [hchord]; norm_num)

/-- C3: under the earlier guards (position magnitudes above `1e-6`,
positive time of flight and `mu`, chord at least `1e-6`, `|lambda| < 1`,
zero multi-revolutions), the solver fails with the time-too-short error
exactly when the normalized time is below the minimum-energy time
`(1 - lambda^3)/3`. -/
theorem solve_timeTooShort_iff (r1 r2 : Vector3D) (timeOfFlight mu : ℝ) (prograde : Bool)
    (h1 : 1e-6 < Vector3D.magnitude r1) (h2 : 1e-6 < Vector3D.magnitude r2)
    (hT : 0 < timeOfFlight) (hmu : 0 < mu)
    (hc : 1e-6 ≤ LambertSolver.chord r1 r2)
    (hlam : |LambertSolver.lambdaParameter r1 r2 prograde| < 1) :
    LambertSolver.solve r1 r2 timeOfFlight mu prograde 0 = .error .timeTooShort ↔
      LambertSolver.normalizedTime r1 r2 timeOfFlight mu <
        IzzoSolver.computeMinimumEnergyTime (LambertSolver.lambdaParameter r1 r2 prograde) := by
  simp only [LambertSolver.solve]
  rw [if_neg (by push_neg; exact ⟨le_of_lt h1, le_of_lt h2⟩), if_neg (not_le.2 hT),
    if_neg (not_le.2 hmu), if_neg (not_lt.2 hc), if_neg (not_le.2 hlam), if_pos trivial]
  constructor
  · intro h
    by_contra hge
    rw [if_neg hge] at h
    cases hx : IzzoSolver.solveForX (LambertSolver.lambdaParameter r1 r2 prograde)
        (LambertSolver.normalizedTime r1 r2 timeOfFlight mu) 1e-14 30 with
    | error e =>
      simp only [hx] at h
      injection h with h2
      subst h2
      rcases IzzoSolver.solveForX_error _ _ _ _ _ hx with he | he <;>
        exact ErrKind.noConfusion he
    | ok x =>
      simp only [hx] at h
      cases hlc : IzzoSolver.calculateLagrangeCoefficients x
          (LambertSolver.lambdaParameter r1 r2 prograde) (Vector3D.magnitude r1)
          (Vector3D.magnitude r2) (LambertSolver.semiperimeter r1 r2)
          (LambertSolver.normalizedTime r1 r2 timeOfFlight mu) timeOfFlight mu with
      | error e =>
        simp only [hlc] at h
        injection h with h2
        subst h2
        exact ErrKind.noConfusion
          (IzzoSolver.calculateLagrangeCoefficients_error _ _ _ _ _ _ _ _ _ hlc)
      | ok lc =>
        simp only [hlc] at h
        split_ifs at h
        all_goals injection h with h2; exact ErrKind.noConfusion h2
  · intro hlt
    rw [if_pos hlt]

/-- Witness for C3 at `r1 = (7000, 0, 0)`, `r2 = (0, 7000, 0)` (a 90-degree
prograde geometry with `lambda = sqrt 2 - 1`), `T = 1 s`,
`mu = 398600.4418`. -/
theorem solve_timeTooShort_iff_witness :
    1e-6 < Vector3D.magnitude ⟨7000, 0, 0⟩ ∧ 1e-6 < Vector3D.magnitude ⟨0, 7000, 0⟩ ∧
    (0 : ℝ) < 1 ∧ (0 : ℝ) < 398600.4418 ∧
    1e-6 ≤ LambertSolver.chord ⟨7000, 0, 0⟩ ⟨0, 7000, 0⟩ ∧
    |LambertSolver.lambdaParameter ⟨7000, 0, 0⟩ ⟨0, 7000, 0⟩ true| < 1 ∧
    (LambertSolver.solve ⟨7000, 0, 0⟩ ⟨0, 7000, 0⟩ 1 398600.4418 true 0 =
        .error .timeTooShort ↔
      LambertSolver.normalizedTime ⟨7000, 0, 0⟩ ⟨0, 7000, 0⟩ 1 398600.4418 <
        IzzoSolver.computeMinimumEnergyTime
          (LambertSolver.lambdaParameter ⟨7000, 0, 0⟩ ⟨0, 7000, 0⟩ true)) := by
  have m1 : Vector3D.magnitude ⟨7000, 0, 0⟩ = 7000 := by
    simp only [Vector3D.magnitude]
    exact sqrt_of_sq (by norm_num) (by norm_num)
  have m2 : Vector3D.magnitude ⟨0, 7000, 0⟩ = 7000 := by
    simp only [Vector3D.magnitude]
    exact sqrt_of_sq (by norm_num) (by norm_num)
  have hch : LambertSolver.chord ⟨7000, 0, 0⟩ ⟨0, 7000, 0⟩ = Real.sqrt 98000000 := by
    simp only [LambertSolver.chord, Vector3D.subtract, Vector3D.magnitude]
    norm_num
  have hch' : (1e-6 : ℝ) ≤ LambertSolver.chord ⟨7000, 0, 0⟩ ⟨0, 7000, 0⟩ := by
    rw [hch]
    exact le_sqrt_of_sq_le (by norm_num) (by norm_num)
  have hcross : Vector3D.cross ⟨7000, 0, 0⟩ ⟨0, 7000, 0⟩ = ⟨0, 0, 49000000⟩ := by
    simp only [Vector3D.cross]
    norm_num
  have hcrossmag : Vector3D.magnitude (Vector3D.cross ⟨7000, 0, 0⟩ ⟨0, 7000, 0⟩) =
      49000000 := by
    rw [hcross]
    simp only [Vector3D.magnitude]
    exact sqrt_of_sq (by norm_num) (by norm_num)
  have hdot : Vector3D.dot ⟨7000, 0, 0⟩ ⟨0, 7000, 0⟩ = 0 := by
    simp only [Vector3D.dot]
    norm_num
  have hI : (⟨0, 1⟩ : ℂ) = Complex.I := rfl
  have hang : LambertSolver.transferAngle ⟨7000, 0, 0⟩ ⟨0, 7000, 0⟩ true = Real.pi / 2 := by
    have hpi := Real.pi_pos
    simp only [LambertSolver.transferAngle, m1, m2, hdot, hcrossmag, atan2]
    norm_num
    rw [hI]
    exact Complex.arg_I
  have hs2 : Real.sqrt 2 < 1.5 := sqrt_lt_of_lt_sq (by norm_num) (by norm_num) (by norm_num)
  have hsqrt98 : (0 : ℝ) ≤ Real.sqrt 98000000 := Real.sqrt_nonneg _
  have hlamval : LambertSolver.lambdaParameter ⟨7000, 0, 0⟩ ⟨0, 7000, 0⟩ true =
      7000 * (Real.sqrt 2 / 2) / ((7000 + 7000 + Real.sqrt 98000000) / 2) := by
    simp only [LambertSolver.lambdaParameter, LambertSolver.semiperimeter, m1, m2, hang, hch]
    rw [show Real.pi / 2 / 2 = Real.pi / 4 by ring, Real.cos_pi_div_four]
    rw [show (7000 : ℝ) * 7000 = 7000 ^ 2 by ring, Real.sqrt_sq (by norm_num)]
  have hlam : |LambertSolver.lambdaParameter ⟨7000, 0, 0⟩ ⟨0, 7000, 0⟩ true| < 1 := by
    rw [hlamval, abs_of_nonneg (by positivity)]
    rw [div_lt_one (by positivity)]
    nlinarith [Real.sq_sqrt (show (0:ℝ) ≤ 2 by norm_num)]
  refine ⟨by rw [m1]; norm_num, by rw [m2]; norm_num, by norm_num, by norm_num, hch', hlam, ?_⟩
  exact solve_timeTooShort_iff _ _ _ _ _ (by rw [m1]; norm_num) (by rw [m2]; norm_num)
    (by norm_num) (by norm_num) hch' hlam

namespace IzzoSolver

/-- At `lambda = 0` the `y` parameter is identically `1`. -/
theorem calculateY_zero (t : ℝ) : calculateY t 0 = 1 := by
  simp only [calculateY]
  rw [show (1 : ℝ) - 0 * 0 * (1 - t * t) = 1 by ring, Real.sqrt_one]

end IzzoSolver

/-- C4 (code bug): at `lambda = 0`, `T = 50000` — an input satisfying the
claim's preconditions `|lambda| < 1` and `T >= T_min` — the initial
guess is `150000^(1/3) - 1`, about `52.13`, and `y = 1`, so the first
loop iteration evaluates `Math.asin(sqrt(x) * y)` with
`sqrt(x) * y > 7.22 > 1`: in JavaScript both the computed time and its
derivative are `NaN` (`none` in the faithful model).  The `NaN` then
propagates through the Householder step, the `0.5` cap and the
`[-1, 50]` clamp (`Math.sign`, `Math.min` and `Math.max` all return
`NaN` on `NaN`), so the iterate becomes `NaN` — neither within
`[-1, 50]` nor displaced by at most `0.5` — and the loop spins through
its 30 iterations to the convergence failure. -/
theorem solveForX_first_step_nan :
    |(0 : ℝ)| < 1 ∧
    IzzoSolver.computeMinimumEnergyTime 0 ≤ 50000 ∧
    IzzoSolver.calculateY (IzzoSolver.initialGuess 0 50000) 0 = 1 ∧
    1 < Real.sqrt (IzzoSolver.initialGuess 0 50000) * 1 ∧
    IzzoSolver.calculateTimeJS (IzzoSolver.initialGuess 0 50000) 1 = none ∧
    IzzoSolver.calculateTimeDerivativeJS (IzzoSolver.initialGuess 0 50000) 1 = none := by
  have hx0eq : IzzoSolver.initialGuess 0 50000 = (150000 : ℝ) ^ ((1 : ℝ) / 3) - 1 := by
    simp only [IzzoSolver.initialGuess]
    rw [if_pos (by norm_num : (50000 : ℝ) ≥ 1 / 3)]
    norm_num
  have hu_pos : (0 : ℝ) < (150000 : ℝ) ^ ((1 : ℝ) / 3) :=
    Real.rpow_pos_of_pos (by norm_num) _
  have hu3 : ((150000 : ℝ) ^ ((1 : ℝ) / 3)) ^ (3 : ℕ) = 150000 := by
    rw [← Real.rpow_natCast ((150000 : ℝ) ^ ((1 : ℝ) / 3)) 3,
      ← Real.rpow_mul (by norm_num : (0 : ℝ) ≤ 150000)]
    norm_num
  have hu_lo : (53.13 : ℝ) < (150000 : ℝ) ^ ((1 : ℝ) / 3) := by
    by_contra hle
    push_neg at hle
    have h2 : ((150000 : ℝ) ^ ((1 : ℝ) / 3)) ^ (3 : ℕ) ≤ (53.13 : ℝ) ^ (3 : ℕ) :=
      pow_le_pow_left (le_of_lt hu_pos) hle 3
    rw [hu3] at h2
    norm_num at h2
  rw [hx0eq]
  set X : ℝ := (150000 : ℝ) ^ ((1 : ℝ) / 3) - 1 with hXdef
  have hX_lo : (52.13 : ℝ) < X := by rw [hXdef]; linarith
  clear_value X
  have hsx : (7.22 : ℝ) < Real.sqrt X := lt_sqrt_of_sq_lt (by norm_num) (by nlinarith)
  have hgt : (1 : ℝ) < Real.sqrt X * 1 := by rw [mul_one]; linarith
  have hnle : ¬(Real.sqrt X * 1 ≤ 1) := not_le.mpr hgt
  have hasin : IzzoSolver.asinJS (Real.sqrt X * 1) = none := by
    simp only [IzzoSolver.asinJS]
    rw [if_pos (Or.inr hgt)]
  refine ⟨by norm_num, ?_, IzzoSolver.calculateY_zero X, hgt, ?_, ?_⟩
  · simp only [IzzoSolver.computeMinimumEnergyTime]
    norm_num
  · simp only [IzzoSolver.calculateTimeJS]
    rw [if_neg (by push_neg; linarith : ¬(X < 0)), if_pos (by linarith : (0 : ℝ) < X),
      if_neg hnle, hasin]
    rfl
  · simp only [IzzoSolver.calculateTimeDerivativeJS]
    rw [if_neg (by push_neg; linarith : ¬(X < 0)), if_pos (by linarith : (0 : ℝ) < X),
      if_neg hnle, hasin]
    rfl

/-! ### HohmannTransfer -/

/-- Result record of `HohmannTransfer.calculate` and of the two phases of
`calculateEarthMoonTransfer`. -/
structure HohmannResult where
  deltaV1 : ℝ
  deltaV2 : ℝ
  transferTime : ℝ
  transferOrbit : OrbitalElements

/-- The `patchedConicDetails` record of `calculateEarthMoonTransfer`. -/
structure PatchedConicDetails where
  lunarSOI : ℝ
  v_infinity : ℝ
  v_at_soi_earth_frame : ℝ
  v_soi_entry_lunar_frame : ℝ
  moon_orbital_velocity : ℝ
  energy_balance_check : Bool

/-- The anonymous return record of `calculateEarthMoonTransfer`. -/
structure EarthMoonTransfer where
  earthEscape : HohmannResult
  lunarCapture : HohmannResult
  totalDeltaV : ℝ
  totalTime : ℝ
  lunarSOI : ℝ
  v_infinity : ℝ
  patchedConicDetails : PatchedConicDetails

namespace HohmannTransfer

/-- `HohmannTransfer.getLunarSOI`: Hill-sphere radius
`d * (mu_Moon / mu_Earth)^(2/5)`. -/
def getLunarSOI : ℝ :=
  EARTH_MOON_DISTANCE * (MU_MOON / MU_EARTH) ^ ((2 : ℝ) / 5)

/-- `HohmannTransfer.calculateTransferTime` (half period of the transfer
ellipse). -/
def calculateTransferTime (r1 r2 mu : ℝ) : ℝ :=
  let a := (r1 + r2) / 2
  let period := 2 * Real.pi * Real.sqrt (a ^ (3 : ℕ) / mu)
  period / 2

/-- `HohmannTransfer.calculateLunarCaptureTime`; the `r_parking` argument
is unused in the source as well. -/
def calculateLunarCaptureTime (r_soi _r_parking v_infinity : ℝ) : ℝ :=
  let characteristic_time := Real.sqrt (r_soi ^ (3 : ℕ) / MU_MOON)
  let hyperbolic_factor := 1 + (v_infinity * v_infinity * r_soi) / (2 * MU_MOON)
  characteristic_time * Real.log hyperbolic_factor

/-- `HohmannTransfer.validateEnergyBalance`. -/
def validateEnergyBalance (r1 r2 v1 v2 : ℝ) : Bool :=
  let energy1 := v1 * v1 / 2 - MU_EARTH / r1
  let energy2 := v2 * v2 / 2 - MU_EARTH / r2
  let energy_error := |energy1 - energy2| / |energy1|
  if energy_error < 1e-6 then true else false

/-! The local `const` bindings of `calculateEarthMoonTransfer` (a nullary
function) are closed terms and are embedded as named definitions with the
source's names. -/

/-- `r_earth_parking = EARTH_RADIUS + EARTH_LOW_ORBIT`. -/
def r_earth_parking : ℝ := EARTH_RADIUS + EARTH_LOW_ORBIT

/-- `r_moon_parking = MOON_RADIUS + MOON_ORBIT_ALT`. -/
def r_moon_parking : ℝ := MOON_RADIUS + MOON_ORBIT_ALT

/-- `r_soi_boundary = EARTH_MOON_DISTANCE - lunarSOI`. -/
def r_soi_boundary : ℝ := EARTH_MOON_DISTANCE - getLunarSOI

/-- `v_earth_circular = sqrt(MU_EARTH / r_earth_parking)`. -/
def v_earth_circular : ℝ := Real.sqrt (MU_EARTH / r_earth_parking)

/-- `specific_energy_transfer = -MU_EARTH / (2 r_soi_boundary)`. -/
def specific_energy_transfer : ℝ := -MU_EARTH / (2 * r_soi_boundary)

/-- `v_departure_magnitude = sqrt(2 (specific_energy_transfer + MU_EARTH / r_earth_parking))`. -/
def v_departure_magnitude : ℝ :=
  Real.sqrt (2 * (specific_energy_transfer + MU_EARTH / r_earth_parking))

/-- `deltaV_earth_escape = v_departure_magnitude - v_earth_circular`. -/
def deltaV_earth_escape : ℝ := v_departure_magnitude - v_earth_circular

/-- `v_at_soi_earth_frame = sqrt(2 MU_EARTH / r_soi_boundary)`. -/
def v_at_soi_earth_frame : ℝ := Real.sqrt (2 * MU_EARTH / r_soi_boundary)

/-- `v_moon_orbital = sqrt(MU_EARTH / EARTH_MOON_DISTANCE)`. -/
def v_moon_orbital : ℝ := Real.sqrt (MU_EARTH / EARTH_MOON_DISTANCE)

/-- `v_infinity = |v_at_soi_earth_frame - v_moon_orbital|`. -/
def v_infinity : ℝ := |v_at_soi_earth_frame - v_moon_orbital|

/-- `v_soi_entry_lunar_frame = sqrt(v_infinity^2 + 2 MU_MOON / lunarSOI)`. -/
def v_soi_entry_lunar_frame : ℝ :=
  Real.sqrt (v_infinity * v_infinity + 2 * MU_MOON / getLunarSOI)

/-- `v_periapsis_capture = sqrt(MU_MOON (2/r_moon_parking - 2/(lunarSOI + r_moon_parking)))`. -/
def v_periapsis_capture : ℝ :=
  Real.sqrt (MU_MOON * (2 / r_moon_parking - 2 / (getLunarSOI + r_moon_parking)))

/-- `v_lunar_circular = sqrt(MU_MOON / r_moon_parking)`. -/
def v_lunar_circular : ℝ := Real.sqrt (MU_MOON / r_moon_parking)

/-- `deltaV_lunar_capture = v_soi_entry_lunar_frame - v_periapsis_capture`. -/
def deltaV_lunar_capture : ℝ := v_soi_entry_lunar_frame - v_periapsis_capture

/-- `deltaV_lunar_insertion = v_periapsis_capture - v_lunar_circular`. -/
def deltaV_lunar_insertion : ℝ := v_periapsis_capture - v_lunar_circular

/-- `total_lunar_deltaV = deltaV_lunar_capture + deltaV_lunar_insertion`. -/
def total_lunar_deltaV : ℝ := deltaV_lunar_capture + deltaV_lunar_insertion

/-- `earthTransferTime = calculateTransferTime(r_earth_parking, r_soi_boundary, MU_EARTH)`. -/
def earthTransferTime : ℝ := calculateTransferTime r_earth_parking r_soi_boundary MU_EARTH

/-- `lunarCaptureTime = calculateLunarCaptureTime(lunarSOI, r_moon_parking, v_infinity)`. -/
def lunarCaptureTime : ℝ := calculateLunarCaptureTime getLunarSOI r_moon_parking v_infinity

/-- `HohmannTransfer.calculateEarthMoonTransfer`.  The three
`UnitConverter.secondsToHours` conversions can throw and are sequenced in
the source's evaluation order. -/
def calculateEarthMoonTransfer : Except ErrKind EarthMoonTransfer :=
  match UnitConverter.secondsToHours earthTransferTime with
  | .error e => .error e
  | .ok earthTT =>
    match UnitConverter.secondsToHours lunarCaptureTime with
    | .error e => .error e
    | .ok lunarTT =>
      match UnitConverter.secondsToHours (earthTransferTime + lunarCaptureTime) with
      | .error e => .error e
      | .ok totalTT =>
        .ok {
          earthEscape := {
            deltaV1 := deltaV_earth_escape
            deltaV2 := 0
            transferTime := earthTT
            transferOrbit := {
              semiMajorAxis := (r_earth_parking + r_soi_boundary) / 2
              eccentricity :=
                |r_soi_boundary - r_earth_parking| / (r_earth_parking + r_soi_boundary)
              inclination := 0
              rightAscension := 0
              argOfPerigee := 0
              trueAnomaly := 0 } }
          lunarCapture := {
            deltaV1 := deltaV_lunar_capture
            deltaV2 := deltaV_lunar_insertion
            transferTime := lunarTT
            transferOrbit := {
              semiMajorAxis := (getLunarSOI + r_moon_parking) / 2
              eccentricity := (getLunarSOI - r_moon_parking) / (getLunarSOI + r_moon_parking)
              inclination := 0
              rightAscension := 0
              argOfPerigee := 0
              trueAnomaly := 0 } }
          totalDeltaV := deltaV_earth_escape + total_lunar_deltaV
          totalTime := totalTT
          lunarSOI := getLunarSOI
          v_infinity := v_infinity
          patchedConicDetails := {
            lunarSOI := getLunarSOI
            v_infinity := v_infinity
            v_at_soi_earth_frame := v_at_soi_earth_frame
            v_soi_entry_lunar_frame := v_soi_entry_lunar_frame
            moon_orbital_velocity := v_moon_orbital
            energy_balance_check := validateEnergyBalance r_earth_parking r_soi_boundary
              v_departure_magnitude v_at_soi_earth_frame } }

end HohmannTransfer

/-! Interval bounds for the quantities of `calculateEarthMoonTransfer`,
each verified against the exact rational values of the constants. -/

namespace HohmannTransfer

theorem mu_ratio_pos : (0 : ℝ) < MU_MOON / MU_EARTH := by
  simp only [MU_MOON, MU_EARTH]
  norm_num

theorem lunarSOI_q_pow :
    ((MU_MOON / MU_EARTH) ^ ((2 : ℝ) / 5)) ^ (5 : ℕ) = (MU_MOON / MU_EARTH) ^ (2 : ℕ) := by
  rw [← Real.rpow_natCast ((MU_MOON / MU_EARTH) ^ ((2 : ℝ) / 5)) 5,
    ← Real.rpow_mul (le_of_lt mu_ratio_pos),
    ← Real.rpow_natCast (MU_MOON / MU_EARTH) 2]
  norm_num

theorem q_bounds : (0.17215 : ℝ) < (MU_MOON / MU_EARTH) ^ ((2 : ℝ) / 5) ∧
    (MU_MOON / MU_EARTH) ^ ((2 : ℝ) / 5) < 0.1722 := by
  constructor
  · by_contra hle
    push_neg at hle
    have h2 : ((MU_MOON / MU_EARTH) ^ ((2 : ℝ) / 5)) ^ (5 : ℕ) ≤ (0.17215 : ℝ) ^ (5 : ℕ) :=
      pow_le_pow_left (Real.rpow_nonneg (le_of_lt mu_ratio_pos) _) hle 5
    rw [lunarSOI_q_pow] at h2
    simp only [MU_MOON, MU_EARTH] at h2
    norm_num at h2
  · by_contra hle
    push_neg at hle
    have h2 : (0.1722 : ℝ) ^ (5 : ℕ) ≤ ((MU_MOON / MU_EARTH) ^ ((2 : ℝ) / 5)) ^ (5 : ℕ) :=
      pow_le_pow_left (by norm_num) hle 5
    rw [lunarSOI_q_pow] at h2
    simp only [MU_MOON, MU_EARTH] at h2
    norm_num at h2

theorem getLunarSOI_bounds : (66174 : ℝ) < getLunarSOI ∧ getLunarSOI < 66194 := by
  obtain ⟨h1, h2⟩ := q_bounds
  simp only [getLunarSOI, EARTH_MOON_DISTANCE]
  constructor <;> linarith

theorem r_soi_boundary_bounds : (318206 : ℝ) < r_soi_boundary ∧ r_soi_boundary < 318226 := by
  obtain ⟨h1, h2⟩ := getLunarSOI_bounds
  simp only [r_soi_boundary, EARTH_MOON_DISTANCE]
  constructor <;> linarith

theorem mu_over_rep_bounds :
    (60.66054 : ℝ) < MU_EARTH / r_earth_parking ∧ MU_EARTH / r_earth_parking < 60.66055 := by
  simp only [MU_EARTH, r_earth_parking, EARTH_RADIUS, EARTH_LOW_ORBIT]
  norm_num

theorem v_earth_circular_bounds :
    (7.7884 : ℝ) < v_earth_circular ∧ v_earth_circular < 7.7885 := by
  have harg_lo : (7.7884 : ℝ) ^ 2 < MU_EARTH / r_earth_parking := by
    simp only [MU_EARTH, r_earth_parking, EARTH_RADIUS, EARTH_LOW_ORBIT]
    norm_num
  have harg_hi : MU_EARTH / r_earth_parking < (7.7885 : ℝ) ^ 2 := by
    simp only [MU_EARTH, r_earth_parking, EARTH_RADIUS, EARTH_LOW_ORBIT]
    norm_num
  simp only [v_earth_circular]
  exact ⟨lt_sqrt_of_sq_lt (by norm_num) harg_lo,
    sqrt_lt_of_lt_sq (le_of_lt (lt_trans (by norm_num) harg_lo)) (by norm_num) harg_hi⟩

theorem specific_energy_bounds :
    (-0.62633 : ℝ) < specific_energy_transfer ∧ specific_energy_transfer < -0.62628 := by
  obtain ⟨h1, h2⟩ := r_soi_boundary_bounds
  simp only [specific_energy_transfer, MU_EARTH]
  constructor
  · rw [neg_div, neg_lt_neg_iff, div_lt_iff (by linarith : (0 : ℝ) < 2 * r_soi_boundary)]
    linarith
  · rw [neg_div, neg_lt_neg_iff, lt_div_iff (by linarith : (0 : ℝ) < 2 * r_soi_boundary)]
    linarith

theorem v_departure_bounds :
    (10.9575 : ℝ) < v_departure_magnitude ∧ v_departure_magnitude < 10.9576 := by
  obtain ⟨h1, h2⟩ := specific_energy_bounds
  obtain ⟨hm1, hm2⟩ := mu_over_rep_bounds
  simp only [v_departure_magnitude]
  exact ⟨lt_sqrt_of_sq_lt (by norm_num) (by nlinarith),
    sqrt_lt_of_lt_sq (by nlinarith) (by norm_num) (by nlinarith)⟩

theorem v_at_soi_bounds :
    (1.5827 : ℝ) < v_at_soi_earth_frame ∧ v_at_soi_earth_frame < 1.5829 := by
  obtain ⟨h1, h2⟩ := r_soi_boundary_bounds
  simp only [v_at_soi_earth_frame, MU_EARTH]
  have harg_lo : (1.5827 : ℝ) ^ 2 < 2 * 398600.4418 / r_soi_boundary := by
    rw [lt_div_iff (by linarith : (0 : ℝ) < r_soi_boundary)]
    nlinarith
  have harg_hi : 2 * 398600.4418 / r_soi_boundary < (1.5829 : ℝ) ^ 2 := by
    rw [div_lt_iff (by linarith : (0 : ℝ) < r_soi_boundary)]
    nlinarith
  exact ⟨lt_sqrt_of_sq_lt (by norm_num) harg_lo,
    sqrt_lt_of_lt_sq (le_of_lt (lt_trans (by norm_num) harg_lo)) (by norm_num) harg_hi⟩

theorem v_moon_orbital_bounds :
    (1.01830 : ℝ) < v_moon_orbital ∧ v_moon_orbital < 1.01831 := by
  have harg_lo : (1.01830 : ℝ) ^ 2 < MU_EARTH / EARTH_MOON_DISTANCE := by
    simp only [MU_EARTH, EARTH_MOON_DISTANCE]
    norm_num
  have harg_hi : MU_EARTH / EARTH_MOON_DISTANCE < (1.01831 : ℝ) ^ 2 := by
    simp only [MU_EARTH, EARTH_MOON_DISTANCE]
    norm_num
  simp only [v_moon_orbital]
  exact ⟨lt_sqrt_of_sq_lt (by norm_num) harg_lo,
    sqrt_lt_of_lt_sq (le_of_lt (lt_trans (by norm_num) harg_lo)) (by norm_num) harg_hi⟩

theorem v_infinity_bounds : (0.56439 : ℝ) < v_infinity ∧ v_infinity < 0.5646 := by
  obtain ⟨h1, h2⟩ := v_at_soi_bounds
  obtain ⟨h3, h4⟩ := v_moon_orbital_bounds
  simp only [v_infinity]
  rw [abs_of_pos (by linarith)]
  constructor <;> linarith

theorem v_soi_entry_bounds :
    (0.6831 : ℝ) < v_soi_entry_lunar_frame ∧ v_soi_entry_lunar_frame < 0.6834 := by
  obtain ⟨h1, h2⟩ := v_infinity_bounds
  obtain ⟨h3, h4⟩ := getLunarSOI_bounds
  have hb_lo : (0.148133 : ℝ) < 2 * MU_MOON / getLunarSOI := by
    rw [lt_div_iff (by linarith : (0 : ℝ) < getLunarSOI)]
    simp only [MU_MOON]
    linarith
  have hb_hi : 2 * MU_MOON / getLunarSOI < 0.14818 := by
    rw [div_lt_iff (by linarith : (0 : ℝ) < getLunarSOI)]
    simp only [MU_MOON]
    linarith
  have hv2_lo : (0.318536 : ℝ) < v_infinity * v_infinity := by nlinarith
  have hv2_hi : v_infinity * v_infinity < 0.318774 := by nlinarith
  simp only [v_soi_entry_lunar_frame]
  exact ⟨lt_sqrt_of_sq_lt (by norm_num) (by nlinarith),
    sqrt_lt_of_lt_sq (by nlinarith) (by norm_num) (by nlinarith)⟩

theorem v_lunar_circular_bounds :
    (1.63367 : ℝ) < v_lunar_circular ∧ v_lunar_circular < 1.63368 := by
  have harg_lo : (1.63367 : ℝ) ^ 2 < MU_MOON / r_moon_parking := by
    simp only [MU_MOON, r_moon_parking, MOON_RADIUS, MOON_ORBIT_ALT]
    norm_num
  have harg_hi : MU_MOON / r_moon_parking < (1.63368 : ℝ) ^ 2 := by
    simp only [MU_MOON, r_moon_parking, MOON_RADIUS, MOON_ORBIT_ALT]
    norm_num
  simp only [v_lunar_circular]
  exact ⟨lt_sqrt_of_sq_lt (by norm_num) harg_lo,
    sqrt_lt_of_lt_sq (le_of_lt (lt_trans (by norm_num) harg_lo)) (by norm_num) harg_hi⟩

theorem totalDeltaV_eq :
    deltaV_earth_escape + total_lunar_deltaV =
      v_departure_magnitude - v_earth_circular + v_soi_entry_lunar_frame -
        v_lunar_circular := by
  simp only [deltaV_earth_escape, total_lunar_deltaV, deltaV_lunar_capture,
    deltaV_lunar_insertion]
  ring

/-- The energy-balance validation is exact at the two states compared by
`calculateEarthMoonTransfer`: the departure state has specific energy
exactly `specific_energy_transfer` (about `-0.626`), while the
SOI-boundary state uses the escape velocity `sqrt(2 mu / r)` and has
specific energy exactly `0`, so the relative error is `1` and the check
returns `false`. -/
theorem validateEnergyBalance_false :
    validateEnergyBalance r_earth_parking r_soi_boundary v_departure_magnitude
      v_at_soi_earth_frame = false := by
  obtain ⟨hrsb, _⟩ := r_soi_boundary_bounds
  obtain ⟨he_lo, he_hi⟩ := specific_energy_bounds
  obtain ⟨hm1, hm2⟩ := mu_over_rep_bounds
  have hmE : (0 : ℝ) < MU_EARTH := by
    simp only [MU_EARTH]
    norm_num
  have he1 : v_departure_magnitude * v_departure_magnitude / 2 -
      MU_EARTH / r_earth_parking = specific_energy_transfer := by
    simp only [v_departure_magnitude]
    rw [Real.mul_self_sqrt (by linarith :
      (0 : ℝ) ≤ 2 * (specific_energy_transfer + MU_EARTH / r_earth_parking))]
    ring
  have he2 : v_at_soi_earth_frame * v_at_soi_earth_frame / 2 -
      MU_EARTH / r_soi_boundary = 0 := by
    simp only [v_at_soi_earth_frame]
    rw [Real.mul_self_sqrt (div_nonneg (by linarith) (by linarith))]
    ring
  simp only [validateEnergyBalance]
  rw [he1, he2, sub_zero, div_self (abs_ne_zero.mpr (ne_of_lt (by linarith)))]
  rw [if_neg (by norm_num : ¬((1 : ℝ) < 1e-6))]

theorem earthTransferTime_nonneg : 0 ≤ earthTransferTime := by
  simp only [earthTransferTime, calculateTransferTime]
  positivity

theorem lunarCaptureTime_nonneg : 0 ≤ lunarCaptureTime := by
  obtain ⟨h3, _⟩ := getLunarSOI_bounds
  obtain ⟨h1, _⟩ := v_infinity_bounds
  have hmM : (0 : ℝ) < MU_MOON := by
    simp only [MU_MOON]
    norm_num
  simp only [lunarCaptureTime, calculateLunarCaptureTime]
  apply mul_nonneg (Real.sqrt_nonneg _)
  apply Real.log_nonneg
  have hquot : 0 ≤ v_infinity * v_infinity * getLunarSOI / (2 * MU_MOON) :=
    div_nonneg (by nlinarith) (by linarith)
  linarith

end HohmannTransfer

/-- C1 (refuted as stated; the code diverges from the specification):
`HohmannTransfer.calculateEarthMoonTransfer` does return a `lunarSOI`
within `100 km` of `66,100 km`, but its `totalDeltaV` is between `2.2`
and `2.3 km/s` — not in the claimed `3.8`–`4.2 km/s` range — and
`patchedConicDetails.energy_balance_check` is `false`, not `true`: the
code compares the departure state (specific energy about
`-0.626 km^2/s^2`) against an SOI-boundary state computed with the
escape velocity `sqrt(2 mu / r)` (specific energy exactly `0`), giving a
relative energy error of `1`, far above the `1e-6` tolerance. -/
theorem earthMoonTransfer_divergence :
    ∃ R : EarthMoonTransfer, HohmannTransfer.calculateEarthMoonTransfer = .ok R ∧
      R.patchedConicDetails.energy_balance_check = false ∧
      |R.lunarSOI - 66100| < 100 ∧
      2.2 < R.totalDeltaV ∧ R.totalDeltaV < 2.3 := by
  have hET : UnitConverter.secondsToHours HohmannTransfer.earthTransferTime =
      .ok (HohmannTransfer.earthTransferTime * (1 / 3600)) := by
    simp only [UnitConverter.secondsToHours]
    rw [if_neg (not_lt.mpr HohmannTransfer.earthTransferTime_nonneg)]
  have hLT : UnitConverter.secondsToHours HohmannTransfer.lunarCaptureTime =
      .ok (HohmannTransfer.lunarCaptureTime * (1 / 3600)) := by
    simp only [UnitConverter.secondsToHours]
    rw [if_neg (not_lt.mpr HohmannTransfer.lunarCaptureTime_nonneg)]
  have hTT : UnitConverter.secondsToHours
      (HohmannTransfer.earthTransferTime + HohmannTransfer.lunarCaptureTime) =
      .ok ((HohmannTransfer.earthTransferTime + HohmannTransfer.lunarCaptureTime) *
        (1 / 3600)) := by
    simp only [UnitConverter.secondsToHours]
    rw [if_neg (not_lt.mpr (by
      linarith [HohmannTransfer.earthTransferTime_nonneg,
        HohmannTransfer.lunarCaptureTime_nonneg]))]
  simp only [HohmannTransfer.calculateEarthMoonTransfer, hET, hLT, hTT]
  refine ⟨_, rfl, ?_, ?_, ?_, ?_⟩
  · exact HohmannTransfer.validateEnergyBalance_false
  · show |HohmannTransfer.getLunarSOI - 66100| < 100
    obtain ⟨h1, h2⟩ := HohmannTransfer.getLunarSOI_bounds
    rw [abs_lt]
    constructor <;> linarith
  · show (2.2 : ℝ) <
      HohmannTransfer.deltaV_earth_escape + HohmannTransfer.total_lunar_deltaV
    rw [HohmannTransfer.totalDeltaV_eq]
    obtain ⟨a1, a2⟩ := HohmannTransfer.v_departure_bounds
    obtain ⟨b1, b2⟩ := HohmannTransfer.v_earth_circular_bounds
    obtain ⟨c1, c2⟩ := HohmannTransfer.v_soi_entry_bounds
    obtain ⟨d1, d2⟩ := HohmannTransfer.v_lunar_circular_bounds
    linarith
  · show HohmannTransfer.deltaV_earth_escape + HohmannTransfer.total_lunar_deltaV <
      (2.3 : ℝ)
    rw [HohmannTransfer.totalDeltaV_eq]
    obtain ⟨a1, a2⟩ := HohmannTransfer.v_departure_bounds
    obtain ⟨b1, b2⟩ := HohmannTransfer.v_earth_circular_bounds
    obtain ⟨c1, c2⟩ := HohmannTransfer.v_soi_entry_bounds
    obtain ⟨d1, d2⟩ := HohmannTransfer.v_lunar_circular_bounds
    linarith

/-! ### FuelOptimizer -/

/-- Result record of `FuelOptimizer.calculate`. -/
structure FuelOptimization where
  massRatio : ℝ
  propellantMass : ℝ
  specificImpulse : ℝ
  burnTime : ℝ

namespace FuelOptimizer

/-- `FuelOptimizer.calculateGravityLossFactor`. -/
def calculateGravityLossFactor (burnTime twRatio : ℝ) : ℝ :=
  if burnTime < 60 then 0
  else
    let timeFactor := min (burnTime / 600) 1.0
    let thrustFactor := max 0.1 (1.0 / twRatio)
    0.05 * timeFactor * thrustFactor

/-- `FuelOptimizer.calculateVariableMassBurnTime`; the source's unused
`characteristicVelocity` binding is kept (underscored). -/
def calculateVariableMassBurnTime (m0 mf twRatio ve g0 : ℝ) : ℝ :=
  let F := twRatio * m0 * g0
  let massFlowRate := F / ve
  let propellantMass := m0 - mf
  let burnTimeConstantThrust := propellantMass / massFlowRate
  if twRatio > 0.5 then
    let _characteristicVelocity := ve * Real.log (m0 / mf)
    let gravityLossFactor := calculateGravityLossFactor burnTimeConstantThrust twRatio
    let correctedBurnTime := burnTimeConstantThrust * (1 + gravityLossFactor)
    min correctedBurnTime (burnTimeConstantThrust * 1.2)
  else burnTimeConstantThrust

/-- `FuelOptimizer.calculate`; the source's default arguments
(`dryMass = SPACECRAFT_DRY_MASS`, `specificImpulse = SPECIFIC_IMPULSE`,
`thrustToWeightRatio = 0.3`) are passed explicitly by callers here.  The
two `console.warn` branches are side effects with no influence on the
returned value and are omitted. -/
def calculate (deltaV dryMass specificImpulse thrustToWeightRatio : ℝ) :
    Except ErrKind FuelOptimization :=
  match UnitConverter.validateDeltaV deltaV with
  | .error e => .error e
  | .ok _ =>
    if dryMass ≤ 0 then .error .invalidDryMass
    else if specificImpulse ≤ 0 then .error .invalidSpecificImpulse
    else if thrustToWeightRatio ≤ 0 ∨ thrustToWeightRatio > 2 then
      .error .invalidThrustToWeight
    else
      let deltaV_ms := UnitConverter.kmPerSecToMPerSec deltaV
      let g0 : ℝ := 9.80665
      let ve := specificImpulse * g0
      let massRatio := Real.exp (deltaV_ms / ve)
      if massRatio < 1 then .error .invalidMassRatio
      else
        let totalMass := dryMass * massRatio
        let propellantMass := totalMass - dryMass
        if propellantMass < 0 then .error .negativePropellantMass
        else
          let burnTime := calculateVariableMassBurnTime totalMass dryMass
            thrustToWeightRatio ve g0
          if burnTime < 0 then .error .negativeBurnTime
          else
            .ok {
              massRatio := roundTo 4 massRatio
              propellantMass := roundTo 1 propellantMass
              specificImpulse := specificImpulse
              burnTime := roundTo 1 burnTime }

end FuelOptimizer

/-- With equal initial and final mass no propellant is consumed and the
burn time of `calculateVariableMassBurnTime` is zero (in both thrust
branches). -/
theorem calculateVariableMassBurnTime_self (m twRatio ve g0 : ℝ) :
    FuelOptimizer.calculateVariableMassBurnTime m m twRatio ve g0 = 0 := by
  simp only [FuelOptimizer.calculateVariableMassBurnTime, sub_self, zero_div]
  split_ifs with h
  · norm_num
  · rfl

/-- `toFixed` rounding fixes `1` (for every number of decimal places). -/
theorem roundTo_one (n : ℕ) : roundTo n 1 = 1 := by
  simp only [roundTo, one_mul]
  have h : ((10 : ℝ) ^ n) = ((10 ^ n : ℤ) : ℝ) := by push_cast; ring
  rw [h, round_intCast]
  exact div_self (by positivity)

/-- `toFixed` rounding fixes `0` (for every number of decimal places). -/
theorem roundTo_zero (n : ℕ) : roundTo n 0 = 0 := by
  simp only [roundTo, zero_mul, round_zero, Int.cast_zero, zero_div]

/-- C7 (confirmed): for every positive dry mass and specific impulse and
every thrust-to-weight ratio in `(0, 2]`, `FuelOptimizer.calculate` at
`deltaV = 0` succeeds and returns `massRatio = 1` (the Tsiolkovsky mass
ratio `exp(0) = 1`, unchanged by the 4-decimal rounding) and
`propellantMass = 0`. -/
theorem fuelOptimizer_zero_deltaV (dryMass specificImpulse thrustToWeightRatio : ℝ)
    (hd : 0 < dryMass) (hs : 0 < specificImpulse)
    (ht1 : 0 < thrustToWeightRatio) (ht2 : thrustToWeightRatio ≤ 2) :
    ∃ r : FuelOptimization,
      FuelOptimizer.calculate 0 dryMass specificImpulse thrustToWeightRatio = .ok r ∧
      FuelOptimization.massRatio r = 1 ∧ FuelOptimization.propellantMass r = 0 := by
  have hval : UnitConverter.validateDeltaV 0 = .ok () := by
    simp only [UnitConverter.validateDeltaV]
    norm_num
  have hmr : Real.exp (UnitConverter.kmPerSecToMPerSec 0 / (specificImpulse * 9.80665)) =
      1 := by
    simp only [UnitConverter.kmPerSecToMPerSec, zero_mul, zero_div, Real.exp_zero]
  simp only [FuelOptimizer.calculate, hval]
  rw [if_neg (not_le.mpr hd), if_neg (not_le.mpr hs),
    if_neg (not_or.mpr ⟨not_le.mpr ht1, not_lt.mpr ht2⟩), hmr,
    if_neg (lt_irrefl (1 : ℝ)), mul_one, sub_self, if_neg (lt_irrefl (0 : ℝ)),
    calculateVariableMassBurnTime_self, if_neg (lt_irrefl (0 : ℝ))]
  exact ⟨_, rfl, roundTo_one 4, roundTo_zero 1⟩

/-- Witness for C7 at `dryMass = 5000`, `Isp = 450`, `twr = 0.3`. -/
theorem fuelOptimizer_zero_deltaV_witness :
    (0 : ℝ) < 5000 ∧ (0 : ℝ) < 450 ∧ (0 : ℝ) < 0.3 ∧ (0.3 : ℝ) ≤ 2 ∧
    ∃ r : FuelOptimization,
      FuelOptimizer.calculate 0 5000 450 0.3 = .ok r ∧
      FuelOptimization.massRatio r = 1 ∧ FuelOptimization.propellantMass r = 0 :=
  ⟨by norm_num, by norm_num, by norm_num, by norm_num,
    fuelOptimizer_zero_deltaV 5000 450 0.3 (by norm_num) (by norm_num) (by norm_num)
      (by norm_num)⟩

/-! ### TrajectoryEngine and free helper functions -/

/-- The transfer-type union `'hohmann' | 'lambert' | 'bi_elliptic'`. -/
inductive TransferType where
  | hohmann
  | lambert
  | biElliptic
  deriving DecidableEq

/-- The `calculations` sub-record of `TrajectoryResult`; `undefined`
members become `none`. -/
structure Calculations where
  hohmannTransfer : Option HohmannResult
  lambertSolution : Option LambertResult
  fuelOptimization : FuelOptimization

/-- Return record of `TrajectoryEngine.generateEarthMoonTrajectory`. -/
structure TrajectoryResult where
  totalDeltaV : ℝ
  flightTime : ℝ
  fuelMass : ℝ
  efficiency : ℝ
  trajectoryPoints : List Vector3D
  orbitalElements : List OrbitalElements
  riskFactors : List String
  calculations : Calculations

/-- Helper `generatePatchedConicTrajectoryPoints`; the source's unused
`totalDistance` and `r_moon_parking` bindings are kept (underscored). -/
def generatePatchedConicTrajectoryPoints (r_earth r_moon lunarSOI : ℝ)
    (numPoints : ℕ) : List Vector3D :=
  let _totalDistance := r_moon
  let soiTransition := r_moon - lunarSOI
  let earthPhasePoints := ⌊(numPoints : ℝ) * 0.8⌋₊
  let lunarPhasePoints := numPoints - earthPhasePoints
  let a_earth := (r_earth + soiTransition) / 2
  let e_earth := |soiTransition - r_earth| / (r_earth + soiTransition)
  let phase1 := (List.range (earthPhasePoints + 1)).map (fun i =>
    let theta := Real.pi * (i : ℝ) / (earthPhasePoints : ℝ)
    let r := a_earth * (1 - e_earth * e_earth) / (1 + e_earth * Real.cos theta)
    (⟨r * Real.cos theta, r * Real.sin theta, 0⟩ : Vector3D))
  let _r_moon_parking := MOON_RADIUS + MOON_ORBIT_ALT
  let phase2 := (List.range lunarPhasePoints).map (fun j =>
    let t := ((j + 1 : ℕ) : ℝ) / (lunarPhasePoints : ℝ)
    let r := soiTransition + t * (r_moon - soiTransition)
    let curvature := Real.sin (t * Real.pi / 2) * lunarSOI * 0.1
    (⟨r, curvature, 0⟩ : Vector3D))
  phase1 ++ phase2

/-- Helper `generateLambertTrajectoryPoints` (linear interpolation; the
Lambert solution argument is unused in the source as well). -/
def generateLambertTrajectoryPoints (r1 r2 : Vector3D) (_solution : LambertResult)
    (numPoints : ℕ) : List Vector3D :=
  (List.range (numPoints + 1)).map (fun i =>
    let t := (i : ℝ) / (numPoints : ℝ)
    Vector3D.add (Vector3D.multiply r1 (1 - t)) (Vector3D.multiply r2 t))

/-- Helper `assessTrajectoryRisks`. -/
def assessTrajectoryRisks (type : TransferType) (deltaV flightTime : ℝ) :
    List String :=
  let risks1 : List String :=
    if deltaV > 4.0 then ["High delta-V requirement increases fuel load and complexity"]
    else []
  let risks2 : List String :=
    if flightTime > 120 then ["Extended flight time increases exposure to space weather"]
    else []
  let risks3 : List String :=
    if type = TransferType.lambert then
      ["Lambert solution may require precise timing and navigation"]
    else []
  risks1 ++ risks2 ++ risks3 ++
    ["Monitor solar activity during launch window",
     "Debris avoidance maneuvers may be required"]

/-- Helper `calculateEfficiency`.  Real division by zero is `0`, so at
`deltaV = 0` this returns `max 0 (min 100 0) = 0` where JavaScript's
`theoretical_min / 0 = Infinity` gives `100`; no claim depends on the
efficiency value at `deltaV = 0`. -/
def calculateEfficiency (deltaV r1 r2 : ℝ) : ℝ :=
  let mu := MU_EARTH
  let v1_circular := Real.sqrt (mu / r1)
  let v2_circular := Real.sqrt (mu / r2)
  let a_transfer := (r1 + r2) / 2
  let v1_transfer := Real.sqrt (mu * (2 / r1 - 1 / a_transfer))
  let v2_transfer := Real.sqrt (mu * (2 / r2 - 1 / a_transfer))
  let theoretical_min := |v1_transfer - v1_circular| + |v2_circular - v2_transfer|
  max 0 (min 100 (theoretical_min / deltaV * 100))

namespace TrajectoryEngine

/-- `TrajectoryEngine.generateEarthMoonTrajectory`.  `launchDate` is
`none` for a missing or invalid (`NaN`-valued) `Date` and `some t` for a
valid date with epoch value `t`; the value `t` is never read past the
validity check.  The `validTypes.includes` check is statically true for
the typed `transferType` argument.  The source's default arguments
(`transferType = 'hohmann'`, `flightTime = 72`) are passed explicitly by
callers here.  The `hohmann` branch reassigns the `flightTime` parameter
to the transfer's total time, modelled by the second tuple component. -/
def generateEarthMoonTrajectory (launchDate : Option ℝ) (transferType : TransferType)
    (flightTime : ℝ) : Except ErrKind TrajectoryResult :=
  match launchDate with
  | none => .error .invalidLaunchDate
  | some _ =>
    match UnitConverter.validateMissionTime flightTime with
    | .error e => .error e
    | .ok _ =>
      let r_earth := EARTH_RADIUS + EARTH_LOW_ORBIT
      let r_moon := MOON_RADIUS + MOON_ORBIT_ALT
      match ((match transferType with
        | .hohmann =>
          match HohmannTransfer.calculateEarthMoonTransfer with
          | .error e => .error e
          | .ok pct =>
            .ok (pct.totalDeltaV, pct.totalTime, some pct.earthEscape,
              (none : Option LambertResult),
              generatePatchedConicTrajectoryPoints r_earth EARTH_MOON_DISTANCE
                pct.lunarSOI 100,
              [pct.earthEscape.transferOrbit, pct.lunarCapture.transferOrbit])
        | .lambert =>
          let r1 : Vector3D := ⟨r_earth, 0, 0⟩
          let r2 : Vector3D := ⟨EARTH_MOON_DISTANCE, 0, 0⟩
          match UnitConverter.hoursToSeconds flightTime with
          | .error e => .error e
          | .ok flightTimeSeconds =>
            match LambertSolver.solve r1 r2 flightTimeSeconds MU_EARTH true 0 with
            | .error e => .error e
            | .ok lam =>
              let v_earth_circular := Real.sqrt (MU_EARTH / r_earth)
              let deltaV_departure :=
                Vector3D.magnitude lam.velocityDeparture - v_earth_circular
              let v_moon_circular := Real.sqrt (MU_MOON / r_moon)
              let deltaV_arrival :=
                Vector3D.magnitude lam.velocityArrival - v_moon_circular
              .ok (|deltaV_departure| + |deltaV_arrival|, flightTime,
                (none : Option HohmannResult), some lam,
                generateLambertTrajectoryPoints r1 r2 lam 100,
                ([] : List OrbitalElements))
        | .biElliptic =>
          .ok ((0 : ℝ), flightTime, (none : Option HohmannResult),
            (none : Option LambertResult), ([] : List Vector3D),
            ([] : List OrbitalElements))) :
          Except ErrKind (ℝ × ℝ × Option HohmannResult × Option LambertResult ×
            List Vector3D × List OrbitalElements)) with
      | .error e => .error e
      | .ok (totalDeltaV, flightTime2, hohmannResult, lambertResult,
          trajectoryPoints, orbitalElements) =>
        match FuelOptimizer.calculate totalDeltaV SPACECRAFT_DRY_MASS
            SPECIFIC_IMPULSE 0.3 with
        | .error e => .error e
        | .ok fuelOptimization =>
          let riskFactors := assessTrajectoryRisks transferType totalDeltaV flightTime2
          let efficiency := calculateEfficiency totalDeltaV r_earth EARTH_MOON_DISTANCE
          .ok {
            totalDeltaV := roundTo 3 totalDeltaV
            flightTime := roundTo 1 flightTime2
            fuelMass := ((round (FuelOptimization.propellantMass fuelOptimization) : ℤ) : ℝ)
            efficiency := roundTo 1 efficiency
            trajectoryPoints := trajectoryPoints
            orbitalElements := orbitalElements
            riskFactors := riskFactors
            calculations := {
              hohmannTransfer := hohmannResult
              lambertSolution := lambertResult
              fuelOptimization := fuelOptimization } }

end TrajectoryEngine

/-- `FuelOptimizer.calculate` at `deltaV = 0` with the default arguments
used by `generateEarthMoonTrajectory`: unit mass ratio, no propellant,
zero burn time. -/
theorem fuelCalculate_zero :
    FuelOptimizer.calculate 0 5000 450 0.3 =
      .ok { massRatio := 1
            propellantMass := 0
            specificImpulse := 450
            burnTime := 0 } := by
  have hval : UnitConverter.validateDeltaV 0 = .ok () := by
    simp only [UnitConverter.validateDeltaV]
    norm_num
  have hmr : Real.exp (UnitConverter.kmPerSecToMPerSec 0 / ((450 : ℝ) * 9.80665)) =
      1 := by
    simp only [UnitConverter.kmPerSecToMPerSec, zero_mul, zero_div, Real.exp_zero]
  simp only [FuelOptimizer.calculate, hval]
  rw [if_neg (by norm_num : ¬((5000 : ℝ) ≤ 0)),
    if_neg (by norm_num : ¬((450 : ℝ) ≤ 0)),
    if_neg (by norm_num : ¬((0.3 : ℝ) ≤ 0 ∨ (0.3 : ℝ) > 2)), hmr,
    if_neg (lt_irrefl (1 : ℝ)), mul_one, sub_self, if_neg (lt_irrefl (0 : ℝ)),
    calculateVariableMassBurnTime_self, if_neg (lt_irrefl (0 : ℝ)),
    roundTo_one, roundTo_zero]

/-- C5 (confirmed): `generateEarthMoonTrajectory` is deterministic — it
is a pure function of its three arguments, and the launch date's value
is consulted only for the validity check, so two calls with the same
`transferType` and `flightTime` whose launch dates are equal, or both
valid, return identical results (identical in every field). -/
theorem generate_deterministic (d d' : Option ℝ) (tt : TransferType) (ft : ℝ)
    (h : d = d' ∨ (d.isSome ∧ d'.isSome)) :
    TrajectoryEngine.generateEarthMoonTrajectory d tt ft =
      TrajectoryEngine.generateEarthMoonTrajectory d' tt ft := by
  rcases h with h | ⟨h1, h2⟩
  · rw [h]
  · rcases d with _ | x
    · simp at h1
    · rcases d' with _ | y
      · simp at h2
      · simp only [TrajectoryEngine.generateEarthMoonTrajectory]

/-- Witness for C5: two distinct valid launch dates, `hohmann`, 72 h. -/
theorem generate_deterministic_witness :
    ((some (0 : ℝ)) = some 1 ∨
      ((some (0 : ℝ)).isSome ∧ (some (1 : ℝ)).isSome)) ∧
    TrajectoryEngine.generateEarthMoonTrajectory (some 0) .hohmann 72 =
      TrajectoryEngine.generateEarthMoonTrajectory (some 1) .hohmann 72 :=
  ⟨Or.inr ⟨rfl, rfl⟩,
    generate_deterministic (some 0) (some 1) .hohmann 72 (Or.inr ⟨rfl, rfl⟩)⟩

/-- C10 (confirmed): `bi_elliptic` passes the transfer-type validation
but no computation branch handles it: for every valid launch date and
mission time, the call succeeds and returns an empty trajectory —
`totalDeltaV = 0`, no trajectory points, no orbital elements,
`fuelMass = 0`, and neither a `hohmannTransfer` nor a `lambertSolution`
sub-record. -/
theorem biElliptic_unhandled (d flightTime : ℝ)
    (h1 : 0.1 ≤ flightTime) (h2 : flightTime ≤ 8760) :
    ∃ R : TrajectoryResult,
      TrajectoryEngine.generateEarthMoonTrajectory (some d) .biElliptic flightTime =
        .ok R ∧
      R.totalDeltaV = 0 ∧ R.trajectoryPoints = [] ∧ R.orbitalElements = [] ∧
      R.fuelMass = 0 ∧
      R.calculations.hohmannTransfer = none ∧
      R.calculations.lambertSolution = none := by
  have hvt : UnitConverter.validateMissionTime flightTime = .ok () := by
    simp only [UnitConverter.validateMissionTime]
    rw [if_neg (not_lt.mpr h1), if_neg (not_lt.mpr h2)]
  have hfc : FuelOptimizer.calculate 0 SPACECRAFT_DRY_MASS SPECIFIC_IMPULSE 0.3 =
      .ok { massRatio := 1
            propellantMass := 0
            specificImpulse := 450
            burnTime := 0 } := by
    simp only [SPACECRAFT_DRY_MASS, SPECIFIC_IMPULSE]
    exact fuelCalculate_zero
  simp only [TrajectoryEngine.generateEarthMoonTrajectory, hvt, hfc, roundTo_zero,
    round_zero, Int.cast_zero]
  exact ⟨_, rfl, rfl, rfl, rfl, rfl, rfl, rfl⟩

/-- Witness for C10 at launch date value `0` and the default 72-hour
mission time. -/
theorem biElliptic_unhandled_witness :
    (0.1 : ℝ) ≤ 72 ∧ (72 : ℝ) ≤ 8760 ∧
    ∃ R : TrajectoryResult,
      TrajectoryEngine.generateEarthMoonTrajectory (some 0) .biElliptic 72 =
        .ok R ∧
      R.totalDeltaV = 0 ∧ R.trajectoryPoints = [] ∧ R.orbitalElements = [] ∧
      R.fuelMass = 0 ∧
      R.calculations.hohmannTransfer = none ∧
      R.calculations.lambertSolution = none :=
  ⟨by norm_num, by norm_num, biElliptic_unhandled 0 72 (by norm_num) (by norm_num)⟩

end Odin
